import Mathlib

/-!
Verification of the Firedancer BPF upgradeable-loader program
(src/flamenco/runtime/program/fd_bpf_loader_program.c) against its
natural-language specification.

The loader's collaborators (the bincode account-state codec, sysvar
readers, native CPI, the sBPF load/verify pipeline, the VM interpreter
and the validated-program cache) are external to the core per the spec's
interface contracts; they are modelled as oracle inputs threaded through
the contexts below.  All arithmetic is on Nat with the 64-bit modulus
made explicit where the C code saturates or could overflow.
-/

/-- Modulus of the C ulong type, 2^64. -/
def W64 : Nat := 18446744073709551616

/-- ULONG_MAX, the largest ulong value. -/
def ULONG_MAX : Nat := W64 - 1

/-- Saturating 64-bit addition, models fd_ulong_sat_add from the bits utilities. -/
def fd_ulong_sat_add (a b : Nat) : Nat := min (a + b) ULONG_MAX

/-- Saturating 64-bit subtraction, models fd_ulong_sat_sub; on Nat the clamp at
zero is exactly truncated subtraction. -/
def fd_ulong_sat_sub (a b : Nat) : Nat := a - b

/-- Saturating 64-bit multiplication, models fd_ulong_sat_mul. -/
def fd_ulong_sat_mul (a b : Nat) : Nat := min (a * b) ULONG_MAX

/-- calculate_heap_cost from fd_bpf_loader_program.c (lines 129-141):
charge heap_cost per 32 KiB page beyond the first, in saturating arithmetic. -/
def calculate_heap_cost (heap_size heap_cost : Nat) : Nat :=
  let s1 := fd_ulong_sat_add heap_size (32 * 1024 - 1)
  fd_ulong_sat_mul (fd_ulong_sat_sub (s1 / (32 * 1024)) 1) heap_cost

/-- Public keys are 32-byte strings compared with memcmp; modelled as Nat with
decidable equality. -/
abbrev Pubkey := Nat

/-- Instruction-level error codes (the FD_EXECUTOR_INSTR_ERR_* constants used by
the loader, each a distinct int in the C code). -/
inductive InstrErr where
  | customErr (code : Nat)
  | invalidArg
  | invalidInstrData
  | invalidAccData
  | accDataTooSmall
  | insufficientFunds
  | incorrectProgramId
  | missingRequiredSignature
  | accAlreadyInitialized
  | uninitializedAccount
  | notEnoughAccKeys
  | accBorrowFailed
  | maxSeedLengthExceeded
  | invalidSeeds
  | borshIoError
  | accNotRentExempt
  | unsupportedSysvar
  | illegalOwner
  | maxAccsDataAllocsExceeded
  | invalidRealloc
  | maxInsnTraceLensExceeded
  | builtinsMustConsumeCus
  | invalidAccOwner
  | arithmeticOverflow
  | accImmutable
  | incorrectAuthority
  | invalidErr
  | genericErr
  | unsupportedProgramId
  | accNotExecutable
  | executableAccountNotRentExempt
  | programEnvironmentSetupFailure
  | programFailedToComplete
  | executableDataModified
  | externalDataModified
  | readonlyDataModified
  | missingAcc
  | fatal
deriving DecidableEq

/-- Bit shift separating builtin program-error codes from custom codes
(BUILTIN_BIT_SHIFT in the SDK program-error contract). -/
def BUILTIN_BIT_SHIFT : Nat := 32

/-- program_error_to_instr_error (fd_bpf_loader_program.c lines 30-94).  The
numeric program-error constants CUSTOM_ZERO..INCORRECT_AUTHORITY are the SDK
values n <<< 32. -/
def program_error_to_instr_error (err : Nat) : InstrErr :=
  if err = 1 * 2 ^ 32 then .customErr 0
  else if err = 2 * 2 ^ 32 then .invalidArg
  else if err = 3 * 2 ^ 32 then .invalidInstrData
  else if err = 4 * 2 ^ 32 then .invalidAccData
  else if err = 5 * 2 ^ 32 then .accDataTooSmall
  else if err = 6 * 2 ^ 32 then .insufficientFunds
  else if err = 7 * 2 ^ 32 then .incorrectProgramId
  else if err = 8 * 2 ^ 32 then .missingRequiredSignature
  else if err = 9 * 2 ^ 32 then .accAlreadyInitialized
  else if err = 10 * 2 ^ 32 then .uninitializedAccount
  else if err = 11 * 2 ^ 32 then .notEnoughAccKeys
  else if err = 12 * 2 ^ 32 then .accBorrowFailed
  else if err = 13 * 2 ^ 32 then .maxSeedLengthExceeded
  else if err = 14 * 2 ^ 32 then .invalidSeeds
  else if err = 15 * 2 ^ 32 then .borshIoError
  else if err = 16 * 2 ^ 32 then .accNotRentExempt
  else if err = 17 * 2 ^ 32 then .unsupportedSysvar
  else if err = 18 * 2 ^ 32 then .illegalOwner
  else if err = 19 * 2 ^ 32 then .maxAccsDataAllocsExceeded
  else if err = 20 * 2 ^ 32 then .invalidRealloc
  else if err = 21 * 2 ^ 32 then .maxInsnTraceLensExceeded
  else if err = 22 * 2 ^ 32 then .builtinsMustConsumeCus
  else if err = 23 * 2 ^ 32 then .invalidAccOwner
  else if err = 24 * 2 ^ 32 then .arithmeticOverflow
  else if err = 25 * 2 ^ 32 then .accImmutable
  else if err = 26 * 2 ^ 32 then .incorrectAuthority
  else if err / 2 ^ BUILTIN_BIT_SHIFT = 0 then .customErr err
  else .invalidErr

/-- Loader account state, the decoded form of the four-variant tagged record
(fd_bpf_upgradeable_loader_state_t). -/
inductive LoaderState where
  | uninitialized
  | buffer (authorityAddress : Option Pubkey)
  | program (programdataAddress : Pubkey)
  | programData (slot : Nat) (upgradeAuthorityAddress : Option Pubkey)
deriving DecidableEq

/-- Encoded byte size of a loader state record (u32 discriminant, one option
tag byte, 32-byte pubkey, u64 slot), models fd_bpf_upgradeable_loader_state_size
of the external bincode codec. -/
def loaderStateSize : LoaderState → Nat
  | .uninitialized => 4
  | .buffer none => 5
  | .buffer (some _) => 37
  | .program _ => 36
  | .programData _ none => 13
  | .programData _ (some _) => 45

/-- Size of an account holding only the Uninitialized discriminant. -/
def SIZE_OF_UNINITIALIZED : Nat := 4
/-- Fixed metadata byte offset of a Buffer account; bytecode starts here. -/
def BUFFER_METADATA_SIZE : Nat := 37
/-- Minimum size of a Program account record. -/
def SIZE_OF_PROGRAM : Nat := 36
/-- Fixed metadata byte offset of a ProgramData account; bytecode starts here. -/
def PROGRAMDATA_METADATA_SIZE : Nat := 45
/-- Protocol maximum account data length (10 MiB). -/
def MAX_PERMITTED_DATA_LENGTH : Nat := 10485760
/-- Protocol maximum in-place data growth of a serialized account (10 KiB). -/
def MAX_PERMITTED_DATA_INCREASE : Nat := 10240

/-- One transaction account as seen through the borrow contract: key, owner,
lamports, data length, the decoded loader state of its data (none when the
external codec rejects it), and the executable flag. -/
structure BorrowedAccount where
  pubkey : Pubkey
  owner : Pubkey
  lamports : Nat
  dataLen : Nat
  state : Option LoaderState
  executable : Bool
deriving DecidableEq

/-- An instruction account: the underlying account plus per-instruction signer
and writability flags and its index in the transaction account list. -/
structure InstrAccount where
  acct : BorrowedAccount
  isSigner : Bool
  isWritable : Bool
  indexInTransaction : Nat
deriving DecidableEq

/-- Protocol feature flags referenced by the loader, threaded as an explicit
immutable value per the spec's design notes. -/
structure FeatureSet where
  removeAccountsExecutableFlagChecks : Bool
  depleteCuMeterOnVmFailure : Bool
  enableBpfLoaderSetAuthorityCheckedIx : Bool
  enableExtendProgramChecked : Bool
  enableLoaderV4 : Bool
  bpfAccountDataDirectMapping : Bool
deriving DecidableEq

/-- Instruction execution context for the management path.  Sysvar reads, rent
arithmetic, PDA derivation, the deploy pipeline and CPI outcomes are external
collaborators and appear as oracle fields. -/
structure InstrCtx where
  accounts : List InstrAccount
  programId : Pubkey
  clockSlot : Nat
  clockPresent : Bool
  rentSysvarCheck : Option InstrErr
  clockSysvarCheck : Option InstrErr
  rentExemptMin : Nat → Nat
  features : FeatureSet
  deployResult : Option InstrErr
  cpiResult : Option InstrErr
  derivedProgramdataAddress : Pubkey

/-- Replace the borrowed-account part of the i-th instruction account. -/
def updateAcct : List InstrAccount → Nat → (BorrowedAccount → BorrowedAccount) → List InstrAccount
  | [], _, _ => []
  | a :: as, 0, f => { a with acct := f a.acct } :: as
  | a :: as, n + 1, f => a :: updateAcct as n f

/-- Check of fd_bpf_loader_v3_program_set_state (lines 316-344): the encoded
state must fit in the account data. -/
def setStateCheck (a : BorrowedAccount) (s : LoaderState) : Option InstrErr :=
  if a.dataLen < loaderStateSize s then some .accDataTooSmall else none

/-- Replace the account list of a context. -/
def withAccounts (ctx : InstrCtx) (accs : List InstrAccount) : InstrCtx :=
  { ctx with accounts := accs }

/-- write_program_data (fd_bpf_loader_program.c lines 258-295): bounds checks
for copying bytes into the account at the given offset; the byte copy itself
does not change any tracked field. -/
def write_program_data (accs : List InstrAccount) (idx : Nat)
    (program_data_offset bytes_len : Nat) : Option InstrErr :=
  match accs.get? idx with
  | none => some .notEnoughAccKeys
  | some program =>
    let write_offset := fd_ulong_sat_add program_data_offset bytes_len
    if program.acct.dataLen < write_offset then some .accDataTooSmall
    else if program.acct.dataLen < program_data_offset then some .accDataTooSmall
    else none

/-- InitializeBuffer handler (lines 939-977). -/
def initializeBufferIx (ctx : InstrCtx) : Option InstrErr × InstrCtx :=
  if ctx.accounts.length < 2 then (some .notEnoughAccKeys, ctx) else
  match ctx.accounts.get? 0, ctx.accounts.get? 1 with
  | some buffer, some authority =>
    match buffer.acct.state with
    | none => (some .invalidAccData, ctx)
    | some st =>
      if st ≠ .uninitialized then (some .accAlreadyInitialized, ctx)
      else
        let newState : LoaderState := .buffer (some authority.acct.pubkey)
        match setStateCheck buffer.acct newState with
        | some e => (some e, ctx)
        | none =>
          let accs1 := updateAcct ctx.accounts 0 (fun b => { b with state := some newState })
          (none, withAccounts ctx accs1)
  | _, _ => (some .notEnoughAccKeys, ctx)

/-- Write handler (lines 979-1035). -/
def writeIx (ctx : InstrCtx) (offset bytes_len : Nat) : Option InstrErr × InstrCtx :=
  if ctx.accounts.length < 2 then (some .notEnoughAccKeys, ctx) else
  match ctx.accounts.get? 0, ctx.accounts.get? 1 with
  | some buffer, some authority =>
    match buffer.acct.state with
    | none => (some .invalidAccData, ctx)
    | some (.buffer authorityAddress) =>
      match authorityAddress with
      | none => (some .accImmutable, ctx)
      | some a =>
        if a ≠ authority.acct.pubkey then (some .incorrectAuthority, ctx)
        else if authority.isSigner = false then (some .missingRequiredSignature, ctx)
        else
          (write_program_data ctx.accounts 0
            (fd_ulong_sat_add BUFFER_METADATA_SIZE offset) bytes_len, ctx)
    | some _ => (some .invalidAccData, ctx)
  | _, _ => (some .notEnoughAccKeys, ctx)

/-- DeployWithMaxDataLen handler (lines 1037-1378).  PDA derivation, the
system-program CPI that creates the ProgramData account, and the deploy
pipeline are external; their outcomes are the context oracles.  The CPI's
resizing of the ProgramData account is likewise external and not tracked. -/
def deployIx (ctx : InstrCtx) (max_data_len : Nat) : Option InstrErr × InstrCtx :=
  if ctx.accounts.length < 4 then (some .notEnoughAccKeys, ctx) else
  match ctx.accounts.get? 0, ctx.accounts.get? 1 with
  | some payer0, some pd0 =>
    let programdata_key := pd0.acct.pubkey
    match ctx.rentSysvarCheck with
    | some e => (some e, ctx)
    | none =>
      match ctx.clockSysvarCheck with
      | some e => (some e, ctx)
      | none =>
        if ctx.clockPresent = false then (some .genericErr, ctx) else
        if ctx.accounts.length < 8 then (some .notEnoughAccKeys, ctx) else
        match ctx.accounts.get? 7, ctx.accounts.get? 2, ctx.accounts.get? 3 with
        | some auth7, some program0, some buffer0 =>
          let authority_key := auth7.acct.pubkey
          match program0.acct.state with
          | none => (some .invalidAccData, ctx)
          | some progSt =>
            if progSt ≠ .uninitialized then (some .accAlreadyInitialized, ctx) else
            if program0.acct.dataLen < SIZE_OF_PROGRAM then (some .accDataTooSmall, ctx) else
            if program0.acct.lamports < ctx.rentExemptMin program0.acct.dataLen then
              (some .executableAccountNotRentExempt, ctx) else
            match buffer0.acct.state with
            | none => (some .invalidAccData, ctx)
            | some (.buffer bufferAuthority) =>
              if bufferAuthority ≠ some authority_key then (some .incorrectAuthority, ctx)
              else if auth7.isSigner = false then (some .missingRequiredSignature, ctx)
              else
                let buffer_data_len := fd_ulong_sat_sub buffer0.acct.dataLen BUFFER_METADATA_SIZE
                let programdata_len := fd_ulong_sat_add PROGRAMDATA_METADATA_SIZE max_data_len
                if buffer0.acct.dataLen < BUFFER_METADATA_SIZE ∨ buffer_data_len = 0 then
                  (some .invalidAccData, ctx)
                else if max_data_len < buffer_data_len then (some .accDataTooSmall, ctx)
                else if MAX_PERMITTED_DATA_LENGTH < programdata_len then (some .invalidArg, ctx)
                else if ctx.derivedProgramdataAddress ≠ programdata_key then (some .invalidArg, ctx)
                else if W64 ≤ payer0.acct.lamports + buffer0.acct.lamports then
                  (some .arithmeticOverflow, ctx)
                else
                  let accs1 := updateAcct (updateAcct ctx.accounts 0
                    (fun b => { b with lamports := b.lamports + buffer0.acct.lamports })) 3
                    (fun b => { b with lamports := 0 })
                  let ctx1 := { ctx with accounts := accs1 }
                  match ctx.cpiResult with
                  | some e => (some e, ctx1)
                  | none =>
                    if buffer0.acct.dataLen < BUFFER_METADATA_SIZE then (some .accDataTooSmall, ctx1)
                    else match ctx.deployResult with
                    | some e => (some e, ctx1)
                    | none =>
                      match setStateCheck pd0.acct (.programData ctx.clockSlot (some authority_key)) with
                      | some e => (some e, ctx1)
                      | none =>
                        let accs2 := updateAcct accs1 1
                          (fun b => { b with state := some (.programData ctx.clockSlot (some authority_key)) })
                        let ctx2 := { ctx with accounts := accs2 }
                        if pd0.acct.dataLen < PROGRAMDATA_METADATA_SIZE + buffer_data_len then
                          (some .accDataTooSmall, ctx2)
                        else if buffer0.acct.dataLen < BUFFER_METADATA_SIZE then
                          (some .accDataTooSmall, ctx2)
                        else
                          let accs3 := updateAcct accs2 3
                            (fun b => { b with dataLen := BUFFER_METADATA_SIZE })
                          let ctx3 := { ctx with accounts := accs3 }
                          match setStateCheck program0.acct (.program programdata_key) with
                          | some e => (some e, ctx3)
                          | none =>
                            let accs4 := updateAcct (updateAcct accs3 2
                              (fun b => { b with state := some (.program programdata_key) })) 2
                              (fun b => { b with executable := true })
                            (none, { ctx with accounts := accs4 })
            | some _ => (some .invalidArg, ctx)
        | _, _, _ => (some .notEnoughAccKeys, ctx)
  | _, _ => (some .notEnoughAccKeys, ctx)

/-- Upgrade handler (lines 1380-1655). -/
def upgradeIx (ctx : InstrCtx) : Option InstrErr × InstrCtx :=
  if ctx.accounts.length < 3 then (some .notEnoughAccKeys, ctx) else
  match ctx.accounts.get? 0 with
  | none => (some .notEnoughAccKeys, ctx)
  | some pd0 =>
    let programdata_key := pd0.acct.pubkey
    match ctx.rentSysvarCheck with
    | some e => (some e, ctx)
    | none =>
      match ctx.clockSysvarCheck with
      | some e => (some e, ctx)
      | none =>
        if ctx.accounts.length < 7 then (some .notEnoughAccKeys, ctx) else
        match ctx.accounts.get? 6, ctx.accounts.get? 1, ctx.accounts.get? 2, ctx.accounts.get? 3 with
        | some auth6, some program0, some buffer0, some spill0 =>
          let authority_key := auth6.acct.pubkey
          if ctx.features.removeAccountsExecutableFlagChecks = false ∧ program0.acct.executable = false then
            (some .accNotExecutable, ctx)
          else if program0.isWritable = false then (some .invalidArg, ctx)
          else if program0.acct.owner ≠ ctx.programId then (some .incorrectProgramId, ctx)
          else match program0.acct.state with
          | none => (some .invalidAccData, ctx)
          | some (.program programdataAddress) =>
            if programdataAddress ≠ programdata_key then (some .invalidArg, ctx)
            else match buffer0.acct.state with
            | none => (some .invalidAccData, ctx)
            | some (.buffer bufferAuthority) =>
              if bufferAuthority ≠ some authority_key then (some .incorrectAuthority, ctx)
              else if auth6.isSigner = false then (some .missingRequiredSignature, ctx)
              else
                let buffer_lamports := buffer0.acct.lamports
                let buffer_data_len := fd_ulong_sat_sub buffer0.acct.dataLen BUFFER_METADATA_SIZE
                if buffer0.acct.dataLen < BUFFER_METADATA_SIZE ∨ buffer_data_len = 0 then
                  (some .invalidAccData, ctx)
                else
                  let programdata_balance_required := max 1 (ctx.rentExemptMin pd0.acct.dataLen)
                  if pd0.acct.dataLen < fd_ulong_sat_add PROGRAMDATA_METADATA_SIZE buffer_data_len then
                    (some .accDataTooSmall, ctx)
                  else if fd_ulong_sat_add pd0.acct.lamports buffer_lamports < programdata_balance_required then
                    (some .insufficientFunds, ctx)
                  else match pd0.acct.state with
                  | none => (some .invalidAccData, ctx)
                  | some pdState =>
                    if ctx.clockPresent = false then (some .genericErr, ctx)
                    else match pdState with
                    | .programData slot upgradeAuthorityAddress =>
                      if ctx.clockSlot = slot then (some .invalidArg, ctx)
                      else match upgradeAuthorityAddress with
                      | none => (some .accImmutable, ctx)
                      | some ua =>
                        if ua ≠ authority_key then (some .incorrectAuthority, ctx)
                        else if auth6.isSigner = false then (some .missingRequiredSignature, ctx)
                        else match ctx.deployResult with
                        | some e => (some e, ctx)
                        | none =>
                          match setStateCheck pd0.acct (.programData ctx.clockSlot (some authority_key)) with
                          | some e => (some e, ctx)
                          | none =>
                            let accs1 := updateAcct ctx.accounts 0
                              (fun b => { b with state := some (.programData ctx.clockSlot (some authority_key)) })
                            let ctx1 := { ctx with accounts := accs1 }
                            if pd0.acct.dataLen < PROGRAMDATA_METADATA_SIZE + buffer_data_len then
                              (some .accDataTooSmall, ctx1)
                            else if buffer0.acct.dataLen < BUFFER_METADATA_SIZE then
                              (some .accDataTooSmall, ctx1)
                            else
                              let spill_addend := fd_ulong_sat_sub
                                (fd_ulong_sat_add pd0.acct.lamports buffer_lamports)
                                programdata_balance_required
                              if W64 ≤ spill0.acct.lamports + spill_addend then
                                (some .arithmeticOverflow, ctx1)
                              else
                                let accs2 := updateAcct accs1 3
                                  (fun b => { b with lamports := b.lamports + spill_addend })
                                let accs3 := updateAcct accs2 2 (fun b => { b with lamports := 0 })
                                let accs4 := updateAcct accs3 0
                                  (fun b => { b with lamports := programdata_balance_required })
                                let accs5 := updateAcct accs4 2
                                  (fun b => { b with dataLen := BUFFER_METADATA_SIZE })
                                (none, { ctx with accounts := accs5 })
                    | _ => (some .invalidAccData, ctx)
            | some _ => (some .invalidArg, ctx)
          | some _ => (some .invalidAccData, ctx)
        | _, _, _, _ => (some .notEnoughAccKeys, ctx)

/-- SetAuthority handler (lines 1657-1749). -/
def setAuthorityIx (ctx : InstrCtx) : Option InstrErr × InstrCtx :=
  if ctx.accounts.length < 2 then (some .notEnoughAccKeys, ctx) else
  match ctx.accounts.get? 0, ctx.accounts.get? 1 with
  | some account, some present =>
    let newAuthority : Option Pubkey := (ctx.accounts.get? 2).map (fun a => a.acct.pubkey)
    match account.acct.state with
    | none => (some .invalidAccData, ctx)
    | some (.buffer authorityAddress) =>
      match newAuthority with
      | none => (some .incorrectAuthority, ctx)
      | some newKey =>
        match authorityAddress with
        | none => (some .accImmutable, ctx)
        | some a =>
          if a ≠ present.acct.pubkey then (some .incorrectAuthority, ctx)
          else if present.isSigner = false then (some .missingRequiredSignature, ctx)
          else
            let newState : LoaderState := .buffer (some newKey)
            match setStateCheck account.acct newState with
            | some e => (some e, ctx)
            | none =>
              let accs1 := updateAcct ctx.accounts 0 (fun b => { b with state := some newState })
              (none, withAccounts ctx accs1)
    | some (.programData slot upgradeAuthorityAddress) =>
      match upgradeAuthorityAddress with
      | none => (some .accImmutable, ctx)
      | some a =>
        if a ≠ present.acct.pubkey then (some .incorrectAuthority, ctx)
        else if present.isSigner = false then (some .missingRequiredSignature, ctx)
        else
          let newState : LoaderState := .programData slot newAuthority
          match setStateCheck account.acct newState with
          | some e => (some e, ctx)
          | none =>
            let accs1 := updateAcct ctx.accounts 0 (fun b => { b with state := some newState })
            (none, withAccounts ctx accs1)
    | some _ => (some .invalidArg, ctx)
  | _, _ => (some .notEnoughAccKeys, ctx)

/-- SetAuthorityChecked handler (lines 1751-1840). -/
def setAuthorityCheckedIx (ctx : InstrCtx) : Option InstrErr × InstrCtx :=
  if ctx.features.enableBpfLoaderSetAuthorityCheckedIx = false then (some .invalidInstrData, ctx) else
  if ctx.accounts.length < 3 then (some .notEnoughAccKeys, ctx) else
  match ctx.accounts.get? 0, ctx.accounts.get? 1, ctx.accounts.get? 2 with
  | some account, some present, some newAuth =>
    match account.acct.state with
    | none => (some .invalidAccData, ctx)
    | some (.buffer authorityAddress) =>
      match authorityAddress with
      | none => (some .accImmutable, ctx)
      | some a =>
        if a ≠ present.acct.pubkey then (some .incorrectAuthority, ctx)
        else if present.isSigner = false then (some .missingRequiredSignature, ctx)
        else if newAuth.isSigner = false then (some .missingRequiredSignature, ctx)
        else
          let newState : LoaderState := .buffer (some newAuth.acct.pubkey)
          match setStateCheck account.acct newState with
          | some e => (some e, ctx)
          | none =>
            let accs1 := updateAcct ctx.accounts 0 (fun b => { b with state := some newState })
            (none, withAccounts ctx accs1)
    | some (.programData slot upgradeAuthorityAddress) =>
      match upgradeAuthorityAddress with
      | none => (some .accImmutable, ctx)
      | some a =>
        if a ≠ present.acct.pubkey then (some .incorrectAuthority, ctx)
        else if present.isSigner = false then (some .missingRequiredSignature, ctx)
        else if newAuth.isSigner = false then (some .missingRequiredSignature, ctx)
        else
          let newState : LoaderState := .programData slot (some newAuth.acct.pubkey)
          match setStateCheck account.acct newState with
          | some e => (some e, ctx)
          | none =>
            let accs1 := updateAcct ctx.accounts 0 (fun b => { b with state := some newState })
            (none, withAccounts ctx accs1)
    | some _ => (some .invalidArg, ctx)
  | _, _, _ => (some .notEnoughAccKeys, ctx)

/-- common_close_account (lines 347-400), operating on instruction accounts
0 (closed), 1 (recipient) and 2 (authority). -/
def common_close_account (authorityAddress : Option Pubkey) (ctx : InstrCtx) :
    Option InstrErr × InstrCtx :=
  match authorityAddress with
  | none => (some .accImmutable, ctx)
  | some auth =>
    match ctx.accounts.get? 2 with
    | none => (some .notEnoughAccKeys, ctx)
    | some authAcct =>
      if auth ≠ authAcct.acct.pubkey then (some .incorrectAuthority, ctx)
      else if authAcct.isSigner = false then (some .missingRequiredSignature, ctx)
      else
        match ctx.accounts.get? 0, ctx.accounts.get? 1 with
        | some closeAcct, some recipient =>
          if W64 ≤ recipient.acct.lamports + closeAcct.acct.lamports then
            (some .arithmeticOverflow, ctx)
          else
            let accs1 := updateAcct ctx.accounts 1
              (fun b => { b with lamports := b.lamports + closeAcct.acct.lamports })
            let accs2 := updateAcct accs1 0 (fun b => { b with lamports := 0 })
            match setStateCheck closeAcct.acct .uninitialized with
            | some e => (some e, withAccounts ctx accs2)
            | none =>
              let accs3 := updateAcct accs2 0 (fun b => { b with state := some .uninitialized })
              (none, withAccounts ctx accs3)
        | _, _ => (some .notEnoughAccKeys, ctx)

/-- Close handler (lines 1842-1986).  Note that the closed account's data
length is truncated to the Uninitialized size before the per-variant legality
checks run, so a rejection later in this handler leaves the raw (uncommitted)
account state mutated. -/
def closeIx (ctx : InstrCtx) : Option InstrErr × InstrCtx :=
  if ctx.accounts.length < 2 then (some .notEnoughAccKeys, ctx) else
  match ctx.accounts.get? 0, ctx.accounts.get? 1 with
  | some close0, some recipient0 =>
    if close0.indexInTransaction = recipient0.indexInTransaction then (some .invalidArg, ctx)
    else match close0.acct.state with
    | none => (some .invalidAccData, ctx)
    | some closeState =>
      let accs1 := updateAcct ctx.accounts 0 (fun b => { b with dataLen := SIZE_OF_UNINITIALIZED })
      let ctx1 := withAccounts ctx accs1
      match closeState with
      | .uninitialized =>
        if W64 ≤ recipient0.acct.lamports + close0.acct.lamports then
          (some .arithmeticOverflow, ctx1)
        else
          let accs2 := updateAcct accs1 1
            (fun b => { b with lamports := b.lamports + close0.acct.lamports })
          let accs3 := updateAcct accs2 0 (fun b => { b with lamports := 0 })
          (none, withAccounts ctx accs3)
      | .buffer authorityAddress =>
        if ctx.accounts.length < 3 then (some .notEnoughAccKeys, ctx1)
        else common_close_account authorityAddress ctx1
      | .programData slot upgradeAuthorityAddress =>
        if ctx.accounts.length < 4 then (some .notEnoughAccKeys, ctx1)
        else match ctx.accounts.get? 3 with
        | none => (some .notEnoughAccKeys, ctx1)
        | some program3 =>
          if program3.isWritable = false then (some .invalidArg, ctx1)
          else if program3.acct.owner ≠ ctx.programId then (some .incorrectProgramId, ctx1)
          else if ctx.clockPresent = false then (some .unsupportedSysvar, ctx1)
          else if ctx.clockSlot = slot then (some .invalidArg, ctx1)
          else match program3.acct.state with
          | none => (some .invalidAccData, ctx1)
          | some (.program programdataAddress) =>
            if programdataAddress ≠ close0.acct.pubkey then (some .invalidArg, ctx1)
            else common_close_account upgradeAuthorityAddress ctx1
          | some _ => (some .invalidArg, ctx1)
      | .program _ => (some .invalidArg, ctx1)
  | _, _ => (some .notEnoughAccKeys, ctx)

/-- common_extend_program (lines 645-911).  The system-program funding CPI is
external; its lamport movement is not tracked here. -/
def common_extend_program (ctx : InstrCtx) (additional_bytes : Nat)
    (check_authority : Bool) : Option InstrErr × InstrCtx :=
  let optional_payer_account_index : Nat := if check_authority then 4 else 3
  if additional_bytes = 0 then (some .invalidInstrData, ctx) else
  match ctx.accounts.get? 0 with
  | none => (some .notEnoughAccKeys, ctx)
  | some pd0 =>
    let programdata_key := pd0.acct.pubkey
    if pd0.acct.owner ≠ ctx.programId then (some .invalidAccOwner, ctx)
    else if pd0.isWritable = false then (some .invalidArg, ctx)
    else match ctx.accounts.get? 1 with
    | none => (some .notEnoughAccKeys, ctx)
    | some program1 =>
      if program1.isWritable = false then (some .invalidArg, ctx)
      else if program1.acct.owner ≠ ctx.programId then (some .invalidAccOwner, ctx)
      else match program1.acct.state with
      | none => (some .invalidAccData, ctx)
      | some (.program programdataAddress) =>
        if programdataAddress ≠ programdata_key then (some .invalidArg, ctx)
        else
          let old_len := pd0.acct.dataLen
          let new_len := fd_ulong_sat_add old_len additional_bytes
          if MAX_PERMITTED_DATA_LENGTH < new_len then (some .invalidRealloc, ctx)
          else if ctx.clockPresent = false then (some .unsupportedSysvar, ctx)
          else match pd0.acct.state with
          | none => (some .invalidAccData, ctx)
          | some (.programData slot upgradeAuthorityAddress) =>
            if ctx.clockSlot = slot then (some .invalidArg, ctx)
            else match upgradeAuthorityAddress with
            | none => (some .accImmutable, ctx)
            | some ua =>
              let authErr : Option InstrErr :=
                if check_authority then
                  match ctx.accounts.get? 2 with
                  | none => some .notEnoughAccKeys
                  | some auth2 =>
                    if ua ≠ auth2.acct.pubkey then some .incorrectAuthority
                    else if auth2.isSigner = false then some .missingRequiredSignature
                    else none
                else none
              match authErr with
              | some e => (some e, ctx)
              | none =>
                let min_balance := max (ctx.rentExemptMin new_len) 1
                let required_payment := fd_ulong_sat_sub min_balance pd0.acct.lamports
                let payErr : Option InstrErr :=
                  if required_payment = 0 then none
                  else match ctx.accounts.get? optional_payer_account_index with
                  | none => some .notEnoughAccKeys
                  | some _ => ctx.cpiResult
                match payErr with
                | some e => (some e, ctx)
                | none =>
                  let accs1 := updateAcct ctx.accounts 0 (fun b => { b with dataLen := new_len })
                  let ctx1 := withAccounts ctx accs1
                  if new_len < PROGRAMDATA_METADATA_SIZE then (some .accDataTooSmall, ctx1)
                  else match ctx.deployResult with
                  | some e => (some e, ctx1)
                  | none =>
                    match setStateCheck { pd0.acct with dataLen := new_len }
                        (.programData ctx.clockSlot (some ua)) with
                    | some e => (some e, ctx1)
                    | none =>
                      let accs2 := updateAcct accs1 0
                        (fun b => { b with state := some (.programData ctx.clockSlot (some ua)) })
                      (none, withAccounts ctx accs2)
          | some _ => (some .invalidAccData, ctx)
      | some _ => (some .invalidAccData, ctx)

/-- Instruction variants of the upgradeable loader covered by this
development (the Migrate arm drives a chain of loader-v4 CPI calls, an
external contract per the spec, and is not modelled). -/
inductive LoaderInstruction where
  | initializeBuffer
  | write (offset : Nat) (bytesLen : Nat)
  | deployWithMaxDataLen (maxDataLen : Nat)
  | upgrade
  | setAuthority
  | setAuthorityChecked
  | close
  | extendProgram (additionalBytes : Nat)
  | extendProgramChecked (additionalBytes : Nat)
deriving DecidableEq

/-- process_loader_upgradeable_instruction (lines 913-2387), over the
already-decoded instruction (the bincode instruction codec is an external
contract).  Returns the instruction result together with the raw,
uncommitted post-state of the instruction accounts. -/
def processLoaderUpgradeableInstruction (ctx : InstrCtx) :
    LoaderInstruction → Option InstrErr × InstrCtx
  | .initializeBuffer => initializeBufferIx ctx
  | .write o l => writeIx ctx o l
  | .deployWithMaxDataLen m => deployIx ctx m
  | .upgrade => upgradeIx ctx
  | .setAuthority => setAuthorityIx ctx
  | .setAuthorityChecked => setAuthorityCheckedIx ctx
  | .close => closeIx ctx
  | .extendProgram n =>
    if ctx.features.enableExtendProgramChecked = true then (some .invalidInstrData, ctx)
    else common_extend_program ctx n false
  | .extendProgramChecked n =>
    if ctx.features.enableExtendProgramChecked = false then (some .invalidInstrData, ctx)
    else common_extend_program ctx n true

/-- Modelled from the spec: the transaction-level abort semantics, which live
outside the loader file (in the executor that calls it).  Spec section 7: every
rejected instruction aborts the whole transaction and there is no partial
application of a rejected instruction's state changes; hence only a successful
instruction's post-state becomes observable. -/
def commitInstr (ctx : InstrCtx) (i : LoaderInstruction) : InstrCtx :=
  match processLoaderUpgradeableInstruction ctx i with
  | (some _, _) => ctx
  | (none, post) => post

/-- Build an instruction account from its fields (test/witness helper). -/
def mkAcct (key owner lam dlen : Nat) (st : Option LoaderState)
    (ex sgn wr : Bool) (idx : Nat) : InstrAccount :=
  ⟨⟨key, owner, lam, dlen, st, ex⟩, sgn, wr, idx⟩

/-- Feature set with every flag set to the same value (test/witness helper). -/
def fsAll (b : Bool) : FeatureSet := ⟨b, b, b, b, b, b⟩

/-- C9: an ExtendProgram instruction with additional_bytes equal to 0 fails
with InvalidInstructionData in every feature configuration, whether or not the
ExtendProgramChecked feature that supersedes ExtendProgram is active. -/
theorem extend_program_zero_invalid_instr_data (ctx : InstrCtx) :
    (processLoaderUpgradeableInstruction ctx (.extendProgram 0)).1
      = some .invalidInstrData := by
  unfold processLoaderUpgradeableInstruction
  by_cases h : ctx.features.enableExtendProgramChecked = true
  · simp [h]
  · simp [h, common_extend_program]

/-- C4: for every account in the Buffer state whose authority field is None,
every Write instruction on that account fails with AccountImmutable, and every
SetAuthority instruction on it (with present-authority and new-authority
accounts supplied, chosen arbitrarily) also fails with AccountImmutable. -/
theorem buffer_none_write_set_authority_immutable
    (ctxW ctxS : InstrCtx) (a0 w1 s1 s2 : InstrAccount)
    (restW restS : List InstrAccount)
    (hW : ctxW.accounts = a0 :: w1 :: restW)
    (hS : ctxS.accounts = a0 :: s1 :: s2 :: restS)
    (hState : a0.acct.state = some (.buffer none))
    (offset bytesLen : Nat) :
    (processLoaderUpgradeableInstruction ctxW (.write offset bytesLen)).1 = some .accImmutable
    ∧ (processLoaderUpgradeableInstruction ctxS .setAuthority).1 = some .accImmutable := by
  constructor
  · unfold processLoaderUpgradeableInstruction writeIx
    rw [hW]
    simp [hState]
    rw [if_neg (by omega)]
  · unfold processLoaderUpgradeableInstruction setAuthorityIx
    rw [hS]
    simp [hState]
    rw [if_neg (by omega)]

/-- Concrete Buffer-with-authority-None account (C4 witness data). -/
def c4a0 : InstrAccount := mkAcct 1 100 0 40 (some (.buffer none)) false false true 0
/-- Concrete authority account for the Write witness. -/
def c4w1 : InstrAccount := mkAcct 2 100 0 0 none false true true 1
/-- Concrete present-authority account for the SetAuthority witness. -/
def c4s1 : InstrAccount := mkAcct 3 100 0 0 none false true true 1
/-- Concrete new-authority account for the SetAuthority witness. -/
def c4s2 : InstrAccount := mkAcct 4 100 0 0 none false true true 2
/-- Concrete Write context on an authority-less Buffer. -/
def c4ctxW : InstrCtx :=
  ⟨[c4a0, c4w1], 100, 0, true, none, none, fun _ => 0, fsAll false, none, none, 0⟩
/-- Concrete SetAuthority context on an authority-less Buffer. -/
def c4ctxS : InstrCtx :=
  ⟨[c4a0, c4s1, c4s2], 100, 0, true, none, none, fun _ => 0, fsAll false, none, none, 0⟩

/-- C4 witness: the theorem applied at the concrete contexts. -/
theorem buffer_none_write_set_authority_immutable_witness :
    (processLoaderUpgradeableInstruction c4ctxW (.write 0 1)).1 = some .accImmutable
    ∧ (processLoaderUpgradeableInstruction c4ctxS .setAuthority).1 = some .accImmutable :=
  buffer_none_write_set_authority_immutable c4ctxW c4ctxS c4a0 c4w1 c4s1 c4s2 [] []
    rfl rfl rfl 0 1

/-- Concrete DeployWithMaxDataLen context whose buffer authority (99) does not
match the supplied authority account (42), with max_data_len 0 strictly below
the buffer bytecode length 1. -/
def c3cexCtx : InstrCtx :=
  ⟨[mkAcct 10 100 0 0 none true true true 0,
    mkAcct 11 100 0 0 none false false true 1,
    mkAcct 12 100 5 36 (some .uninitialized) false false true 2,
    mkAcct 13 100 0 38 (some (.buffer (some 99))) false false true 3,
    mkAcct 14 100 0 0 none false false false 4,
    mkAcct 15 100 0 0 none false false false 5,
    mkAcct 16 100 0 0 none false false false 6,
    mkAcct 42 100 0 0 none false true false 7],
   100, 3, true, none, none, fun _ => 5, fsAll false, none, none, 11⟩

/-- C3 counterexample: a DeployWithMaxDataLen instruction whose max_data_len
(0) is strictly smaller than the buffer bytecode length (1) but whose supplied
authority does not match the buffer authority fails with IncorrectAuthority,
not AccountDataTooSmall: the claim's "regardless of authority correctness"
does not hold on the code, which checks the authority first. -/
theorem deploy_max_len_authority_precedence_cex :
    (processLoaderUpgradeableInstruction c3cexCtx (.deployWithMaxDataLen 0)).1
        = some .incorrectAuthority
    ∧ (processLoaderUpgradeableInstruction c3cexCtx (.deployWithMaxDataLen 0)).1
        ≠ some .accDataTooSmall
    ∧ 0 < fd_ulong_sat_sub 38 BUFFER_METADATA_SIZE := by decide

/-- C3 (amended): a DeployWithMaxDataLen instruction whose max_data_len is
strictly smaller than the buffer bytecode length (buffer data length minus the
buffer metadata size) fails with AccountDataTooSmall, provided the supplied
authority matches the buffer authority and has signed (authority errors take
precedence otherwise). -/
theorem deploy_max_data_len_too_small (ctx : InstrCtx)
    (a0 a1 a2 a3 a4 a5 a6 a7 : InstrAccount) (rest : List InstrAccount)
    (hAccs : ctx.accounts = a0 :: a1 :: a2 :: a3 :: a4 :: a5 :: a6 :: a7 :: rest)
    (hRent : ctx.rentSysvarCheck = none)
    (hClockChk : ctx.clockSysvarCheck = none)
    (hClock : ctx.clockPresent = true)
    (hProgSt : a2.acct.state = some .uninitialized)
    (hProgLen : SIZE_OF_PROGRAM ≤ a2.acct.dataLen)
    (hProgLam : ctx.rentExemptMin a2.acct.dataLen ≤ a2.acct.lamports)
    (hBufSt : a3.acct.state = some (.buffer (some a7.acct.pubkey)))
    (hBufSig : a7.isSigner = true)
    (hBufLen : BUFFER_METADATA_SIZE < a3.acct.dataLen)
    (maxDataLen : Nat)
    (hMax : maxDataLen < a3.acct.dataLen - BUFFER_METADATA_SIZE) :
    (processLoaderUpgradeableInstruction ctx (.deployWithMaxDataLen maxDataLen)).1
      = some .accDataTooSmall := by
  unfold processLoaderUpgradeableInstruction deployIx
  rw [hAccs]
  simp [hRent, hClockChk, hClock, hProgSt, hBufSt, hBufSig]
  rw [if_neg (by omega)]
  rw [if_neg (by omega)]
  simp [fd_ulong_sat_sub]
  rw [if_neg (by omega)]
  rw [if_neg (by omega)]
  rw [if_neg (by push_neg; constructor <;> omega)]
  rw [if_pos (by omega)]

/-- Concrete payer account (C3 witness data). -/
def c3b0 : InstrAccount := mkAcct 10 100 0 0 none true true true 0
/-- Concrete ProgramData-address account (C3 witness data). -/
def c3b1 : InstrAccount := mkAcct 11 100 0 0 none false false true 1
/-- Concrete uninitialized Program account (C3 witness data). -/
def c3b2 : InstrAccount := mkAcct 12 100 5 36 (some .uninitialized) false false true 2
/-- Concrete Buffer account with matching authority 42 (C3 witness data). -/
def c3b3 : InstrAccount := mkAcct 13 100 0 38 (some (.buffer (some 42))) false false true 3
/-- Concrete rent-sysvar slot account (C3 witness data). -/
def c3b4 : InstrAccount := mkAcct 14 100 0 0 none false false false 4
/-- Concrete clock-sysvar slot account (C3 witness data). -/
def c3b5 : InstrAccount := mkAcct 15 100 0 0 none false false false 5
/-- Concrete filler account (C3 witness data). -/
def c3b6 : InstrAccount := mkAcct 16 100 0 0 none false false false 6
/-- Concrete signing authority account 42 (C3 witness data). -/
def c3b7 : InstrAccount := mkAcct 42 100 0 0 none false true false 7
/-- Concrete DeployWithMaxDataLen context with a correct, signing authority. -/
def c3okCtx : InstrCtx :=
  ⟨[c3b0, c3b1, c3b2, c3b3, c3b4, c3b5, c3b6, c3b7],
   100, 3, true, none, none, fun _ => 5, fsAll false, none, none, 11⟩

/-- C3 witness: the amended theorem applied at the concrete context. -/
theorem deploy_max_data_len_too_small_witness :
    (processLoaderUpgradeableInstruction c3okCtx (.deployWithMaxDataLen 0)).1
      = some .accDataTooSmall :=
  deploy_max_data_len_too_small c3okCtx c3b0 c3b1 c3b2 c3b3 c3b4 c3b5 c3b6 c3b7 []
    rfl rfl rfl rfl rfl (by decide) (by decide) rfl rfl (by decide) 0 (by decide)

/-- C5: an Upgrade instruction whose ProgramData account decodes to the
ProgramData variant with slot equal to the current clock slot fails with
InvalidArg, for every upgrade-authority value recorded in that state (in
particular even when the provided authority is correct and has signed). -/
theorem upgrade_same_slot_invalid_arg (ctx : InstrCtx)
    (a0 a1 a2 a3 a4 a5 a6 : InstrAccount) (rest : List InstrAccount)
    (pdAuth : Option Pubkey)
    (hAccs : ctx.accounts = a0 :: a1 :: a2 :: a3 :: a4 :: a5 :: a6 :: rest)
    (hRent : ctx.rentSysvarCheck = none)
    (hClockChk : ctx.clockSysvarCheck = none)
    (hExec : ctx.features.removeAccountsExecutableFlagChecks = true ∨ a1.acct.executable = true)
    (hWr : a1.isWritable = true)
    (hOwn : a1.acct.owner = ctx.programId)
    (hProgSt : a1.acct.state = some (.program a0.acct.pubkey))
    (hBufSt : a2.acct.state = some (.buffer (some a6.acct.pubkey)))
    (hBufSig : a6.isSigner = true)
    (hBufLen : BUFFER_METADATA_SIZE < a2.acct.dataLen)
    (hPdLen : fd_ulong_sat_add PROGRAMDATA_METADATA_SIZE
        (fd_ulong_sat_sub a2.acct.dataLen BUFFER_METADATA_SIZE) ≤ a0.acct.dataLen)
    (hFund : max 1 (ctx.rentExemptMin a0.acct.dataLen)
        ≤ fd_ulong_sat_add a0.acct.lamports a2.acct.lamports)
    (hClock : ctx.clockPresent = true)
    (hPdSt : a0.acct.state = some (.programData ctx.clockSlot pdAuth)) :
    (processLoaderUpgradeableInstruction ctx .upgrade).1 = some .invalidArg := by
  unfold processLoaderUpgradeableInstruction upgradeIx
  rw [hAccs]
  simp [hRent, hClockChk, hClock, hWr, hOwn, hProgSt, hBufSt, hBufSig, hPdSt]
  rw [if_neg (by omega)]
  rw [if_neg (by omega)]
  rw [if_neg (by rcases hExec with h | h <;> simp [h])]
  rw [if_neg (by push_neg
                 exact ⟨Nat.le_of_lt hBufLen, Nat.sub_ne_zero_of_lt hBufLen⟩)]
  rw [if_neg (Nat.not_lt.mpr hPdLen)]
  obtain ⟨hF1, hF2⟩ := sup_le_iff.mp hFund
  rw [if_neg (by push_neg; exact ⟨by omega, hF2⟩)]

/-- Concrete ProgramData account deployed at slot 9 (C5 witness data). -/
def c5a0 : InstrAccount := mkAcct 1 100 10 50 (some (.programData 9 (some 7))) false false true 0
/-- Concrete executable Program account paired with key 1 (C5/C6 witness data). -/
def c5a1 : InstrAccount := mkAcct 2 100 0 36 (some (.program 1)) true false true 1
/-- Concrete Buffer account with authority 7 (C5/C6 witness data). -/
def c5a2 : InstrAccount := mkAcct 3 100 20 38 (some (.buffer (some 7))) false false true 2
/-- Concrete spill account (C5/C6 witness data). -/
def c5a3 : InstrAccount := mkAcct 4 100 0 0 none false false true 3
/-- Concrete rent-sysvar slot account (C5/C6 witness data). -/
def c5a4 : InstrAccount := mkAcct 5 100 0 0 none false false false 4
/-- Concrete clock-sysvar slot account (C5/C6 witness data). -/
def c5a5 : InstrAccount := mkAcct 6 100 0 0 none false false false 5
/-- Concrete signing upgrade-authority account 7 (C5/C6 witness data). -/
def c5a6 : InstrAccount := mkAcct 7 100 0 0 none false true false 6

/-- Concrete Upgrade context at clock slot 9 with the ProgramData also at
slot 9 and a correct, signing upgrade authority. -/
def c5ctx : InstrCtx :=
  ⟨[c5a0, c5a1, c5a2, c5a3, c5a4, c5a5, c5a6],
   100, 9, true, none, none, fun _ => 5, fsAll false, none, none, 1⟩

/-- C5 witness: the theorem applied at the concrete context. -/
theorem upgrade_same_slot_invalid_arg_witness :
    (processLoaderUpgradeableInstruction c5ctx .upgrade).1 = some .invalidArg :=
  upgrade_same_slot_invalid_arg c5ctx c5a0 c5a1 c5a2 c5a3 c5a4 c5a5 c5a6 [] (some 7)
    rfl rfl rfl (Or.inr rfl) rfl rfl rfl rfl rfl (by decide) (by decide) (by decide)
    rfl rfl

/-- Concrete ProgramData account deployed at slot 5 (C6 data). -/
def c6a0 : InstrAccount := mkAcct 1 100 10 50 (some (.programData 5 (some 7))) false false true 0
/-- Concrete Upgrade context at clock slot 9 whose ProgramData slot is 5, so
the upgrade succeeds. -/
def c6ctx : InstrCtx :=
  ⟨[c6a0, c5a1, c5a2, c5a3, c5a4, c5a5, c5a6],
   100, 9, true, none, none, fun _ => 5, fsAll false, none, none, 1⟩

/-- C6 counterexample: a successful Upgrade leaves the buffer account with 0
lamports, not the rent-exempt minimum (here 5 for every data length), and the
spill account receives the combined programdata-plus-buffer excess (25), not
merely the buffer remainder above the minimum (20 - 5): the claim mixes up the
buffer and the ProgramData account. -/
theorem upgrade_buffer_drained_to_zero_cex :
    (processLoaderUpgradeableInstruction c6ctx .upgrade).1 = none
    ∧ ((processLoaderUpgradeableInstruction c6ctx .upgrade).2.accounts.get? 2).map
        (fun a => a.acct.lamports) = some 0
    ∧ c6ctx.rentExemptMin BUFFER_METADATA_SIZE = 5
    ∧ (some 0 : Option Nat) ≠ some 5
    ∧ ((processLoaderUpgradeableInstruction c6ctx .upgrade).2.accounts.get? 3).map
        (fun a => a.acct.lamports) = some 25
    ∧ (25 : Nat) ≠ 20 - 5 := by decide

/-- C6 (amended): for every successful Upgrade instruction, after the lamport
redistribution the ProgramData account holds exactly max(1, rent-exempt
minimum for its data length), the buffer account is fully drained to zero
lamports and truncated to its metadata size, and the entire excess
sat_sub(programdata lamports + buffer lamports, that minimum) is transferred
to the spill account. -/
theorem upgrade_lamport_redistribution (ctx : InstrCtx)
    (a0 a1 a2 a3 a4 a5 a6 : InstrAccount) (rest : List InstrAccount)
    (pdSlot : Nat)
    (hAccs : ctx.accounts = a0 :: a1 :: a2 :: a3 :: a4 :: a5 :: a6 :: rest)
    (hRent : ctx.rentSysvarCheck = none)
    (hClockChk : ctx.clockSysvarCheck = none)
    (hExec : ctx.features.removeAccountsExecutableFlagChecks = true ∨ a1.acct.executable = true)
    (hWr : a1.isWritable = true)
    (hOwn : a1.acct.owner = ctx.programId)
    (hProgSt : a1.acct.state = some (.program a0.acct.pubkey))
    (hBufSt : a2.acct.state = some (.buffer (some a6.acct.pubkey)))
    (hBufSig : a6.isSigner = true)
    (hBufLen : BUFFER_METADATA_SIZE < a2.acct.dataLen)
    (h45 : PROGRAMDATA_METADATA_SIZE + (a2.acct.dataLen - BUFFER_METADATA_SIZE) ≤ a0.acct.dataLen)
    (hFund : max 1 (ctx.rentExemptMin a0.acct.dataLen)
        ≤ fd_ulong_sat_add a0.acct.lamports a2.acct.lamports)
    (hClock : ctx.clockPresent = true)
    (hPdSt : a0.acct.state = some (.programData pdSlot (some a6.acct.pubkey)))
    (hSlotNe : ctx.clockSlot ≠ pdSlot)
    (hDep : ctx.deployResult = none)
    (hOv : a3.acct.lamports + fd_ulong_sat_sub (fd_ulong_sat_add a0.acct.lamports a2.acct.lamports)
        (max 1 (ctx.rentExemptMin a0.acct.dataLen)) < W64) :
    (processLoaderUpgradeableInstruction ctx .upgrade).1 = none
    ∧ ((processLoaderUpgradeableInstruction ctx .upgrade).2.accounts.get? 0).map
        (fun a => a.acct.lamports) = some (max 1 (ctx.rentExemptMin a0.acct.dataLen))
    ∧ ((processLoaderUpgradeableInstruction ctx .upgrade).2.accounts.get? 2).map
        (fun a => a.acct.lamports) = some 0
    ∧ ((processLoaderUpgradeableInstruction ctx .upgrade).2.accounts.get? 2).map
        (fun a => a.acct.dataLen) = some BUFFER_METADATA_SIZE
    ∧ ((processLoaderUpgradeableInstruction ctx .upgrade).2.accounts.get? 3).map
        (fun a => a.acct.lamports)
        = some (a3.acct.lamports + fd_ulong_sat_sub (fd_ulong_sat_add a0.acct.lamports a2.acct.lamports)
            (max 1 (ctx.rentExemptMin a0.acct.dataLen))) := by
  have h45n : 45 + (a2.acct.dataLen - 37) ≤ a0.acct.dataLen := by
    simpa [PROGRAMDATA_METADATA_SIZE, BUFFER_METADATA_SIZE] using h45
  obtain ⟨hF1, hF2⟩ := sup_le_iff.mp hFund
  unfold processLoaderUpgradeableInstruction upgradeIx
  rw [hAccs]
  simp [hRent, hClockChk, hClock, hWr, hOwn, hProgSt, hBufSt, hBufSig, hPdSt, hDep, hSlotNe]
  rw [if_neg (by omega)]
  rw [if_neg (by omega)]
  rw [if_neg (by rcases hExec with h | h <;> simp [h])]
  rw [if_neg (by push_neg
                 exact ⟨Nat.le_of_lt hBufLen, Nat.sub_ne_zero_of_lt hBufLen⟩)]
  rw [if_neg (show ¬ (a0.acct.dataLen < fd_ulong_sat_add PROGRAMDATA_METADATA_SIZE
        (fd_ulong_sat_sub a2.acct.dataLen BUFFER_METADATA_SIZE)) from
      Nat.not_lt.mpr (le_trans (Nat.min_le_left _ _) h45))]
  rw [if_neg (by push_neg; exact ⟨by omega, hF2⟩)]
  have hSS : setStateCheck a0.acct
      (LoaderState.programData ctx.clockSlot (some a6.acct.pubkey)) = none := by
    simp only [setStateCheck, loaderStateSize]
    rw [if_neg (by omega)]
  rw [hSS]
  rw [if_neg (show ¬ (a0.acct.dataLen < PROGRAMDATA_METADATA_SIZE
        + fd_ulong_sat_sub a2.acct.dataLen BUFFER_METADATA_SIZE) from Nat.not_lt.mpr h45)]
  rw [if_neg (Nat.not_lt.mpr (Nat.le_of_lt hBufLen))]
  rw [if_neg (Nat.not_le.mpr hOv)]
  simp [updateAcct, withAccounts]

/-- C6 witness: the amended theorem applied at the concrete successful
Upgrade context. -/
theorem upgrade_lamport_redistribution_witness :
    (processLoaderUpgradeableInstruction c6ctx .upgrade).1 = none
    ∧ ((processLoaderUpgradeableInstruction c6ctx .upgrade).2.accounts.get? 0).map
        (fun a => a.acct.lamports) = some (max 1 (c6ctx.rentExemptMin c6a0.acct.dataLen))
    ∧ ((processLoaderUpgradeableInstruction c6ctx .upgrade).2.accounts.get? 2).map
        (fun a => a.acct.lamports) = some 0
    ∧ ((processLoaderUpgradeableInstruction c6ctx .upgrade).2.accounts.get? 2).map
        (fun a => a.acct.dataLen) = some BUFFER_METADATA_SIZE
    ∧ ((processLoaderUpgradeableInstruction c6ctx .upgrade).2.accounts.get? 3).map
        (fun a => a.acct.lamports)
        = some (c5a3.acct.lamports
            + fd_ulong_sat_sub (fd_ulong_sat_add c6a0.acct.lamports c5a2.acct.lamports)
              (max 1 (c6ctx.rentExemptMin c6a0.acct.dataLen))) :=
  upgrade_lamport_redistribution c6ctx c6a0 c5a1 c5a2 c5a3 c5a4 c5a5 c5a6 [] 5
    rfl rfl rfl (Or.inr rfl) rfl rfl rfl rfl rfl (by decide) (by decide) (by decide)
    rfl rfl (by decide) rfl (by decide)

/-- Concrete Close context: the closed ProgramData account (data length 100)
was deployed in the current slot (9), so the instruction is rejected, but only
after the handler has already truncated the raw account data length to 4. -/
def c8ctx : InstrCtx :=
  ⟨[mkAcct 1 100 10 100 (some (.programData 9 (some 7))) false false true 0,
    mkAcct 2 100 0 0 none false false true 1,
    mkAcct 7 100 0 0 none false true false 2,
    mkAcct 3 100 0 36 (some (.program 1)) true false true 3],
   100, 9, true, none, none, fun _ => 5, fsAll false, none, none, 1⟩

/-- C8: a loader management instruction that returns an error leaves no
observable state change: the committed (transaction-visible) state equals the
pre-instruction state for every rejected instruction.  The second conjunct
shows this is not vacuous: a concrete rejected Close has already mutated its
raw in-flight account state (data length truncated), yet the committed state
is unchanged, so the rollback is load-bearing. -/
theorem rejected_instruction_no_observable_change :
    (∀ (ctx : InstrCtx) (i : LoaderInstruction),
        (processLoaderUpgradeableInstruction ctx i).1.isSome = true → commitInstr ctx i = ctx)
    ∧ ((processLoaderUpgradeableInstruction c8ctx .close).1 = some .invalidArg
        ∧ (processLoaderUpgradeableInstruction c8ctx .close).2.accounts ≠ c8ctx.accounts
        ∧ commitInstr c8ctx .close = c8ctx) := by
  constructor
  · intro ctx i h
    unfold commitInstr
    cases hp : processLoaderUpgradeableInstruction ctx i with
    | mk r post =>
      cases r with
      | none => rw [hp] at h; simp at h
      | some e => rfl
  · exact ⟨by decide, by decide, rfl⟩

/-- C8 witness: the rollback theorem applied at the concrete rejected Close. -/
theorem rejected_instruction_no_observable_change_witness :
    commitInstr c8ctx .close = c8ctx :=
  rejected_instruction_no_observable_change.1 c8ctx .close (by decide)

/-- VM memory access type of a faulting access (FD_VM_ACCESS_TYPE_LD/ST). -/
inductive VmAccessType where
  | ld
  | st
deriving DecidableEq

/-- VM execution fault codes relevant to the dispatcher: the access-violation
and syscall-error codes are distinguished by name, all other nonzero faults are
otherFault. -/
inductive VmErr where
  | ebpfAccessViolation
  | ebpfSyscallError
  | otherFault (code : Nat)
deriving DecidableEq

/-- Error kind recorded in the transaction context during the VM run
(FD_EXECUTOR_ERR_KIND_INSTR / SYSCALL / EBPF). -/
inductive ExecErrKind where
  | kindInstr
  | kindSyscall
  | kindEbpf
deriving DecidableEq

/-- Modelled from the spec: the VM address-space contract (fd_vm headers,
outside src) — vaddrs select a 4 GiB region by their high 32 bits (vaddrs of
the input region start at 0xFFFFFFFF + 1 per the comment at line 558), region
4 is the serialized-accounts input region, and the low 32 bits are the
in-region offset (FD_VM_OFFSET_MASK). -/
def FD_VM_INPUT_REGION : Nat := 4
/-- Low 32-bit in-region offset mask of a vaddr (FD_VM_OFFSET_MASK). -/
def FD_VM_OFFSET_MASK : Nat := 4294967295
/-- Region index of a vaddr, its high 32 bits (FD_VADDR_TO_REGION). -/
def FD_VADDR_TO_REGION (vaddr : Nat) : Nat := vaddr / 4294967296

/-- Outcome of the external fd_vm_exec call: the fault (none on success), the
remaining compute units left in the VM, the return register r0, and the
faulting address and access type of a memory fault (segv_vaddr is ULONG_MAX
when no fault address was recorded). -/
structure VmOutcome where
  execErr : Option VmErr
  cu : Nat
  r0 : Nat
  segvVaddr : Nat
  segvAccessType : VmAccessType
deriving DecidableEq

/-- Per-instruction-account serialization record used for fault diagnosis: the
vaddr offset of the account's input memory region
(input_mem_regions[acc_region_metas[i].region_idx].vaddr_offset), the
account's original length (pre_lens[i]), and its executable/writable flags. -/
structure FaultAccMeta where
  regionVaddrOffset : Nat
  preLen : Nat
  executable : Bool
  writable : Bool
deriving DecidableEq

/-- Execution-dispatcher context: the compute meter and heap configuration,
plus oracle outcomes of the external collaborators (serialization, the VM run,
the error kind the run recorded, deserialization). -/
structure ExecCtx where
  features : FeatureSet
  computeMeter : Nat
  heapSize : Nat
  vmHeapCost : Nat
  serializeResult : Option InstrErr
  inputPresent : Bool
  accMetas : List FaultAccMeta
  isDeprecated : Bool
  vm : VmOutcome
  postErrKind : ExecErrKind
  postExecErr : InstrErr
  deserializeResult : Option InstrErr
deriving DecidableEq

/-- Loop predicate of the fault-diagnosis walk (line 582): the fault offset
lies inside the account's serialized region, extended by the permitted data
increase for non-deprecated serialization. -/
def faultAccountMatch (vaddrOffset addl : Nat) (m : FaultAccMeta) : Bool :=
  decide (m.regionVaddrOffset ≤ vaddrOffset)
    && decide (vaddrOffset < m.regionVaddrOffset + m.preLen + addl)

/-- Per-account fault classification (lines 586-593). -/
def classifyFaultAccount (fs : FeatureSet) (m : FaultAccMeta) : InstrErr :=
  if fs.removeAccountsExecutableFlagChecks = false ∧ m.executable = true then
    .executableDataModified
  else if m.writable = true then .externalDataModified
  else .readonlyDataModified

/-- Fall-through fault reporting by recorded error kind (lines 599-633). -/
def faultErrKindResult (ctx : ExecCtx) : InstrErr :=
  match ctx.postErrKind with
  | .kindInstr => ctx.postExecErr
  | .kindSyscall => .programFailedToComplete
  | .kindEbpf => .programFailedToComplete

/-- Classification of an abnormal VM fault (lines 550-633): the direct-mapping
store access-violation re-classification, falling back to the recorded error
kind. -/
def faultResult (ctx : ExecCtx) (e : VmErr) : InstrErr :=
  if ctx.features.bpfAccountDataDirectMapping = true ∧ e = .ebpfAccessViolation
      ∧ ctx.vm.segvVaddr ≠ ULONG_MAX ∧ ctx.vm.segvAccessType = .st then
    if FD_VADDR_TO_REGION ctx.vm.segvVaddr = 0 then .programFailedToComplete
    else if FD_VADDR_TO_REGION ctx.vm.segvVaddr ≠ FD_VM_INPUT_REGION then
      .programFailedToComplete
    else
      match ctx.accMetas.find? (faultAccountMatch (ctx.vm.segvVaddr % (FD_VM_OFFSET_MASK + 1))
          (if ctx.isDeprecated = true then 0 else MAX_PERMITTED_DATA_INCREASE)) with
      | some m => classifyFaultAccount ctx.features m
      | none => faultErrKindResult ctx
  else faultErrKindResult ctx

/-- fd_bpf_execute (lines 406-642): serialize accounts (external), charge the
heap-size-derived compute cost up front, run the VM (external outcome), set
the compute meter from the VM, and classify the outcome.  Returns the
instruction result together with the final compute meter. -/
def fd_bpf_execute (ctx : ExecCtx) : Option InstrErr × Nat :=
  match ctx.serializeResult with
  | some e => (some e, ctx.computeMeter)
  | none =>
    if ctx.inputPresent = false then (some .missingAcc, ctx.computeMeter)
    else
      let heap_cost := calculate_heap_cost ctx.heapSize ctx.vmHeapCost
      if ctx.computeMeter < heap_cost then (some .programEnvironmentSetupFailure, 0)
      else
        let meter2 := ctx.vm.cu
        match ctx.vm.execErr with
        | none =>
          if ctx.vm.r0 ≠ 0 then
            (some (program_error_to_instr_error ctx.vm.r0), meter2)
          else
            match ctx.deserializeResult with
            | some e => (some e, meter2)
            | none => (none, meter2)
        | some e =>
          let meter3 :=
            if ctx.features.depleteCuMeterOnVmFailure = true ∧ e ≠ .ebpfSyscallError
            then 0 else meter2
          (some (faultResult ctx e), meter3)

/-- C1: for every VM execution ending in an abnormal fault, when direct memory
mapping is enabled, the fault is a store access violation with a recorded
fault address, the address lies in the serialized-accounts input region, and
the fault offset falls inside the region recorded for one of the instruction's
accounts (the first such account in instruction order), the dispatcher reports
ExecutableDataModified if that account is executable (and the
executable-flag-check-removal feature is inactive), ExternalDataModified if it
is writable, and ReadonlyDataModified otherwise; in particular the result is
never the generic ProgramFailedToComplete. -/
theorem fd_bpf_execute_store_fault_classification (ctx : ExecCtx) (m : FaultAccMeta)
    (hSer : ctx.serializeResult = none)
    (hInput : ctx.inputPresent = true)
    (hAfford : calculate_heap_cost ctx.heapSize ctx.vmHeapCost ≤ ctx.computeMeter)
    (hDm : ctx.features.bpfAccountDataDirectMapping = true)
    (hErr : ctx.vm.execErr = some .ebpfAccessViolation)
    (hVaddr : ctx.vm.segvVaddr ≠ ULONG_MAX)
    (hSt : ctx.vm.segvAccessType = .st)
    (hRegion : FD_VADDR_TO_REGION ctx.vm.segvVaddr = FD_VM_INPUT_REGION)
    (hFind : ctx.accMetas.find? (faultAccountMatch (ctx.vm.segvVaddr % (FD_VM_OFFSET_MASK + 1))
        (if ctx.isDeprecated = true then 0 else MAX_PERMITTED_DATA_INCREASE)) = some m) :
    (fd_bpf_execute ctx).1 = some (classifyFaultAccount ctx.features m)
    ∧ (fd_bpf_execute ctx).1
        = some (if ctx.features.removeAccountsExecutableFlagChecks = false ∧ m.executable = true
                then .executableDataModified
                else if m.writable = true then .externalDataModified
                else .readonlyDataModified)
    ∧ (fd_bpf_execute ctx).1 ≠ some .programFailedToComplete := by
  have hFault : faultResult ctx .ebpfAccessViolation = classifyFaultAccount ctx.features m := by
    unfold faultResult
    rw [if_pos ⟨hDm, rfl, hVaddr, hSt⟩]
    rw [if_neg (by rw [hRegion]; decide)]
    rw [if_neg (by rw [hRegion]; simp [FD_VM_INPUT_REGION])]
    rw [hFind]
  have hRun : (fd_bpf_execute ctx).1 = some (classifyFaultAccount ctx.features m) := by
    unfold fd_bpf_execute
    rw [hSer, hErr]
    simp [hInput, hFault]
    rw [if_neg (Nat.not_lt.mpr hAfford)]
  refine ⟨hRun, ?_, ?_⟩
  · rw [hRun]
    unfold classifyFaultAccount
    rfl
  · rw [hRun]
    unfold classifyFaultAccount
    split
    · simp
    · split <;> simp

/-- Concrete dispatcher context with direct mapping on: a store access
violation at input-region offset 100, inside the single (read-only) account's
region [50, 50+100+10240). -/
def c1ctx : ExecCtx :=
  ⟨⟨false, false, false, false, false, true⟩, 1000, 0, 8, none, true,
   [⟨50, 100, false, false⟩], false,
   ⟨some .ebpfAccessViolation, 7, 0, 17179869284, .st⟩, .kindEbpf, .invalidArg, none⟩

/-- C1 witness: the theorem applied at the concrete context; the matched
account is read-only, so the result is ReadonlyDataModified. -/
theorem fd_bpf_execute_store_fault_classification_witness :
    (fd_bpf_execute c1ctx).1 = some (classifyFaultAccount c1ctx.features ⟨50, 100, false, false⟩)
    ∧ (fd_bpf_execute c1ctx).1
        = some (if c1ctx.features.removeAccountsExecutableFlagChecks = false
                    ∧ (⟨50, 100, false, false⟩ : FaultAccMeta).executable = true
                then .executableDataModified
                else if (⟨50, 100, false, false⟩ : FaultAccMeta).writable = true
                then .externalDataModified
                else .readonlyDataModified)
    ∧ (fd_bpf_execute c1ctx).1 ≠ some .programFailedToComplete :=
  fd_bpf_execute_store_fault_classification c1ctx ⟨50, 100, false, false⟩
    rfl rfl (by decide) rfl rfl (by decide) rfl (by decide) (by decide)

/-- C7 (amended): when the deplete-compute-on-VM-failure feature is active,
every VM run that returns an abnormal fault leaves the compute meter at zero
(all remaining compute consumed), except when the fault is the syscall-error
code, in which case the meter keeps the value the VM left in it. -/
theorem fault_compute_drain_rule (ctx : ExecCtx) (e : VmErr)
    (hSer : ctx.serializeResult = none)
    (hInput : ctx.inputPresent = true)
    (hAfford : calculate_heap_cost ctx.heapSize ctx.vmHeapCost ≤ ctx.computeMeter)
    (hErr : ctx.vm.execErr = some e)
    (hDep : ctx.features.depleteCuMeterOnVmFailure = true) :
    (fd_bpf_execute ctx).2 = if e = .ebpfSyscallError then ctx.vm.cu else 0 := by
  unfold fd_bpf_execute
  rw [hSer, hErr]
  simp [hInput, hDep, Nat.not_lt.mpr hAfford]

/-- Concrete dispatcher context with the deplete feature inactive and an
abnormal non-syscall fault; the VM left 7 compute units. -/
def c7cexCtx : ExecCtx :=
  ⟨fsAll false, 100, 0, 8, none, true, [], false,
   ⟨some (.otherFault 33), 7, 0, ULONG_MAX, .ld⟩, .kindEbpf, .invalidArg, none⟩

/-- C7 counterexample: with the deplete_cu_meter_on_vm_failure feature
inactive, an abnormal fault that is not the syscall-error exception leaves the
compute meter at the value the VM left (7), not zero: the claim holds only
under that feature, which it does not mention. -/
theorem deplete_feature_gate_cex :
    c7cexCtx.vm.execErr = some (.otherFault 33)
    ∧ (VmErr.otherFault 33 : VmErr) ≠ .ebpfSyscallError
    ∧ (fd_bpf_execute c7cexCtx).2 = 7
    ∧ (7 : Nat) ≠ 0 := by decide

/-- Concrete dispatcher context with the deplete feature active (C7 witness). -/
def c7okCtx : ExecCtx :=
  ⟨⟨false, true, false, false, false, false⟩, 100, 0, 8, none, true, [], false,
   ⟨some (.otherFault 33), 7, 0, ULONG_MAX, .ld⟩, .kindEbpf, .invalidArg, none⟩

/-- C7 witness: the amended theorem applied at the concrete context. -/
theorem fault_compute_drain_rule_witness :
    (fd_bpf_execute c7okCtx).2
      = if (VmErr.otherFault 33) = VmErr.ebpfSyscallError then c7okCtx.vm.cu else 0 :=
  fault_compute_drain_rule c7okCtx (.otherFault 33) rfl rfl (by decide) rfl rfl

/-- C10: the up-front compute cost equals the saturating expression
sat_mul(sat_sub(sat_add(h, 32 KiB - 1) / 32 KiB, 1), c); without saturation it
is (number of 32 KiB pages needed for h, minus one) times c, so a heap of 32
KiB or less is charged zero; and the Execution Dispatcher fails with
ProgramEnvironmentSetupFailure before running the VM when this cost exceeds
the compute meter. -/
theorem calculate_heap_cost_pages (h c : Nat)
    (hh : h + (32 * 1024 - 1) ≤ ULONG_MAX)
    (hc : ((h + (32 * 1024 - 1)) / (32 * 1024) - 1) * c ≤ ULONG_MAX) :
    calculate_heap_cost h c
      = fd_ulong_sat_mul (fd_ulong_sat_sub (fd_ulong_sat_add h (32 * 1024 - 1) / (32 * 1024)) 1) c
    ∧ calculate_heap_cost h c = ((h + (32 * 1024 - 1)) / (32 * 1024) - 1) * c
    ∧ (h ≤ 32 * 1024 → calculate_heap_cost h c = 0)
    ∧ (∀ ctx : ExecCtx, ctx.serializeResult = none → ctx.inputPresent = true →
        ctx.heapSize = h → ctx.vmHeapCost = c →
        ctx.computeMeter < calculate_heap_cost h c →
        fd_bpf_execute ctx = (some .programEnvironmentSetupFailure, 0)) := by
  have hmain : calculate_heap_cost h c = ((h + (32 * 1024 - 1)) / (32 * 1024) - 1) * c := by
    simp only [calculate_heap_cost, fd_ulong_sat_add, fd_ulong_sat_sub, fd_ulong_sat_mul]
    rw [Nat.min_eq_left hh, Nat.min_eq_left hc]
  refine ⟨rfl, hmain, ?_, ?_⟩
  · intro hle
    rw [hmain]
    have hdiv : (h + (32 * 1024 - 1)) / (32 * 1024) ≤ 1 := by omega
    have : (h + (32 * 1024 - 1)) / (32 * 1024) - 1 = 0 := by omega
    rw [this, Nat.zero_mul]
  · intro ctx h1 h2 h3 h4 h5
    unfold fd_bpf_execute
    rw [h1]
    simp only [h2]
    rw [if_neg (by simp)]
    rw [h3, h4]
    rw [if_pos h5]

/-- C10 witness: the theorem applied at heap size 100000 and per-page cost 8:
100000 bytes need 4 pages of 32 KiB, so the charge is 3 * 8. -/
theorem calculate_heap_cost_pages_witness :
    calculate_heap_cost 100000 8 = ((100000 + (32 * 1024 - 1)) / (32 * 1024) - 1) * 8 :=
  (calculate_heap_cost_pages 100000 8 (by decide) (by decide)).2.1

/-- Modelled from the spec: the native-loader sentinel key (fd_solana_native_loader_id,
a 32-byte protocol constant declared outside src); distinct from every loader id. -/
def nativeLoaderId : Pubkey := 9001
/-- Modelled from the spec: the upgradeable loader program id
(fd_solana_bpf_loader_upgradeable_program_id). -/
def bpfLoaderUpgradeableProgramId : Pubkey := 9002
/-- Modelled from the spec: the legacy v2 loader program id
(fd_solana_bpf_loader_program_id). -/
def bpfLoaderProgramId : Pubkey := 9003
/-- Modelled from the spec: the deprecated v1 loader program id
(fd_solana_bpf_loader_deprecated_program_id). -/
def bpfLoaderDeprecatedProgramId : Pubkey := 9004

/-- Entry in the external validated-program cache: only the failed-verification
flag matters to the router. -/
structure CacheEntry where
  failedVerification : Bool
deriving DecidableEq

/-- Entry-router context: the borrowed program account about to run, the
program id, the current execution slot, the feature set, and the transaction's
executable-account lookup (fd_exec_txn_ctx_get_executable_account, an external
contract). -/
structure EntryCtx where
  programAccount : BorrowedAccount
  programId : Pubkey
  txnSlot : Nat
  features : FeatureSet
  getExecutableAccount : Pubkey → Option BorrowedAccount

/-- Outcome of the top-level entry router, tagged by where the routing
decision fell: management dispatch, an invocation error raised before the
cache lookup, an error at the cache lookup, or delegation to the VM
dispatcher. -/
inductive RouterOutcome where
  | mgmtUpgradeable
  | mgmtErr (e : InstrErr)
  | preCacheErr (e : InstrErr)
  | cacheErr (e : InstrErr)
  | runVm (isDeprecated : Bool)
deriving DecidableEq

/-- Error used throughout the invocation checks of the router: every failure
in that block maps to InvalidAccountData, or UnsupportedProgramId when the
executable-flag-check-removal feature is active. -/
def notDeployedErr (fs : FeatureSet) : InstrErr :=
  if fs.removeAccountsExecutableFlagChecks = true then .unsupportedProgramId
  else .invalidAccData

/-- fd_bpf_loader_program_execute (lines 2391-2593): distinguish management
instructions (owner is the native-loader sentinel) from invocations; for
invocations, check the executable flag, re-derive delayed-visibility and
tombstone rules from the Program/ProgramData account states, and only then
consult the external cache (passed as an explicit function) before delegating
to the VM dispatcher. -/
def fd_bpf_loader_program_execute (ctx : EntryCtx)
    (cache : Pubkey → Option CacheEntry) : RouterOutcome :=
  if ctx.programAccount.owner = nativeLoaderId then
    if ctx.programId = bpfLoaderUpgradeableProgramId then .mgmtUpgradeable
    else if ctx.programId = bpfLoaderProgramId then .mgmtErr .unsupportedProgramId
    else if ctx.programId = bpfLoaderDeprecatedProgramId then .mgmtErr .unsupportedProgramId
    else if ctx.features.removeAccountsExecutableFlagChecks = true then
      .mgmtErr .unsupportedProgramId
    else .mgmtErr .incorrectProgramId
  else if ctx.features.removeAccountsExecutableFlagChecks = false
      ∧ ctx.programAccount.executable = false then
    .preCacheErr .incorrectProgramId
  else
    let isDeprecated := ctx.programAccount.owner = bpfLoaderDeprecatedProgramId
    let pre : Option InstrErr :=
      if ctx.programAccount.owner = bpfLoaderUpgradeableProgramId then
        match ctx.programAccount.state with
        | some (.program programdataAddress) =>
          match ctx.getExecutableAccount programdataAddress with
          | none => some (notDeployedErr ctx.features)
          | some pd =>
            if pd.dataLen < PROGRAMDATA_METADATA_SIZE then some (notDeployedErr ctx.features)
            else match pd.state with
              | some (.programData slot _) =>
                if ctx.txnSlot ≤ slot then some (notDeployedErr ctx.features) else none
              | _ => some (notDeployedErr ctx.features)
        | _ => some (notDeployedErr ctx.features)
      else none
    match pre with
    | some e => .preCacheErr e
    | none =>
      match cache ctx.programId with
      | none => .cacheErr (notDeployedErr ctx.features)
      | some prog =>
        if prog.failedVerification = true then .cacheErr (notDeployedErr ctx.features)
        else .runVm isDeprecated

/-- C2: invoking a program owned by the upgradeable loader whose paired
ProgramData account records a slot greater than or equal to the current
execution slot fails with InvalidAccountData (UnsupportedProgramId when the
executable-flag-check-removal feature is active), and the failure is a
pre-cache outcome computed identically for every cache function, hence before
the cache lookup and before any VM execution. -/
theorem router_delayed_visibility_pre_cache (ctx : EntryCtx)
    (programdataAddress : Pubkey) (pd : BorrowedAccount) (s : Nat) (a : Option Pubkey)
    (hOwner : ctx.programAccount.owner = bpfLoaderUpgradeableProgramId)
    (hExec : ctx.features.removeAccountsExecutableFlagChecks = true
        ∨ ctx.programAccount.executable = true)
    (hState : ctx.programAccount.state = some (.program programdataAddress))
    (hPd : ctx.getExecutableAccount programdataAddress = some pd)
    (hLen : PROGRAMDATA_METADATA_SIZE ≤ pd.dataLen)
    (hPdState : pd.state = some (.programData s a))
    (hSlot : ctx.txnSlot ≤ s) :
    ∀ cache : Pubkey → Option CacheEntry,
      fd_bpf_loader_program_execute ctx cache
        = .preCacheErr (notDeployedErr ctx.features) := by
  intro cache
  unfold fd_bpf_loader_program_execute
  rw [if_neg (by rw [hOwner]; decide)]
  rw [if_neg (by rcases hExec with h | h <;> simp [h])]
  rw [hOwner]
  simp [hState, hPd, hPdState, Nat.not_lt.mpr hLen, hSlot]

/-- Concrete paired ProgramData account recording slot 9 (C2 witness data). -/
def c2pd : BorrowedAccount :=
  ⟨21, bpfLoaderUpgradeableProgramId, 0, 45, some (.programData 9 (some 7)), false⟩

/-- Concrete router context: an executable upgradeable-loader program whose
ProgramData slot (9) equals the current execution slot (9). -/
def c2ctx : EntryCtx :=
  ⟨⟨20, bpfLoaderUpgradeableProgramId, 0, 36, some (.program 21), true⟩,
   20, 9, fsAll false, fun k => if k = 21 then some c2pd else none⟩

/-- C2 witness: the theorem applied at the concrete context and the empty
cache. -/
theorem router_delayed_visibility_pre_cache_witness :
    fd_bpf_loader_program_execute c2ctx (fun _ => none)
      = .preCacheErr (notDeployedErr c2ctx.features) :=
  router_delayed_visibility_pre_cache c2ctx 21 c2pd 9 (some 7)
    rfl (Or.inr rfl) rfl (by decide) (by decide) rfl (by decide) (fun _ => none)
